import Mathlib

/-!
Shallow embedding of `src/lib/run-optimistic.ts` (the optimistic executor of
the `optimistate` package).

Modelling choices, all read off the TypeScript source:

* A source cell store is a total map `String → V` (the externally owned
  cells); the Source Set is the list of keys of `descriptor.sources`
  (`Object.keys(sources)`, duplicate-free in JS, but no proof below needs
  that).
* A possibly-throwing synchronous function is embedded as `Except E _`;
  the asynchronous confirming operation is abstracted by the value its
  promise eventually settles with (`Except E R`), passed to the settle
  phase.
* `runOptimistic` is split at its single suspension point
  (`await operation(...)`): `runOptimisticStart` is everything that runs
  synchronously at call time — the concurrency gate, the in-flight
  increment, the empty-source check, snapshot, mutate, apply, the
  `pending`/`null` writes, the invocation of the operation and the
  registration of the run promise — and `runOptimisticSettle` is the
  `try/catch/finally` continuation that runs when the awaited operation
  settles.  `runOptimistic` composes them.
* Every externally visible effect (cell read, cell write, status write,
  error write, operation invocation, custom-rollback invocation) is also
  recorded in an event trace, in program order, so ordering claims are
  statements about that trace.
* The per-descriptor `WeakMap` bookkeeping (`inFlightCount`,
  `inFlightPromise`) is a `Book` record for the one descriptor under
  study; promises are identified by a `Nat` id, the fresh id of a call
  being a parameter.  Note that the `finally` block in the source is
  attached only to the `try` that wraps the `await`, so a failure thrown
  before it (empty Source Set, throwing `mutate`) never runs it; the
  embedding reproduces this.
-/

namespace Optimistate

variable {V E P R : Type}

/-- Status enumeration `OptimisticActionStatus` from `types.ts`. -/
inductive ActionStatus : Type
  | idle
  | pending
  | success
  | error
deriving DecidableEq, Repr

/-- Concurrency policy of a descriptor (`'allow' | 'ignore'`). -/
inductive Concurrency : Type
  | allow
  | ignore
deriving DecidableEq, Repr

/-- Failure value carried by the rejected run promise: either the
`ConfigurationError` thrown on an empty Source Set (with its message) or a
value thrown by caller code (`mutate` or the confirming operation),
re-raised verbatim. -/
inductive RunErr (E : Type) : Type
  | config (msg : String)
  | thrown (e : E)
deriving DecidableEq, Repr

/-- Message of the empty-Source-Set error in `run-optimistic.ts`. -/
def configMsg : String := "runOptimistic requires at least one source to update."

/-- Context handed to the custom rollback handler: payload, optimistic
snapshot, prior snapshot and the failure value (as in `types.ts`,
snapshots being plain key/value records over the Source Set keys). -/
structure RbCtx (V E P : Type) : Type where
  payload : P
  optimistic : List (String × V)
  snapshot : List (String × V)
  error : E
deriving DecidableEq

/-- Action descriptor (`OptimisticOperation` of `types.ts`), minus the
confirming operation itself, whose settled outcome is a parameter of the
settle phase.  `hasStatus` / `hasError` record whether the optional status
and error targets are configured (`setTarget` is a no-op when they are
not).  `mutate` returns a total valuation of the keys (the TS type
guarantees the returned object holds every Source Set key); a throwing
`mutate` is the `Except.error` case.  A custom rollback handler is a
function from its context to the cell writes it performs, embedded as a
store transformer. -/
structure Desc (V E P : Type) : Type where
  keys : List String
  mutate : List (String × V) → P → Except E (String → V)
  rollback? : Option (RbCtx V E P → (String → V) → (String → V))
  concurrency : Concurrency
  hasStatus : Bool
  hasError : Bool

/-- In-flight bookkeeping for one descriptor: the `inFlightCount` entry
(`none` = no entry in the WeakMap) and the `inFlightPromise` entry
(promise ids are `Nat`). -/
structure Book : Type where
  count : Option Nat
  prom : Option Nat
deriving DecidableEq, Repr

/-- Mutable world visible to one descriptor's runs: the cell store, the
value held by the status target and by the error target (meaningful only
when configured), and the in-flight bookkeeping. -/
structure St (V E : Type) : Type where
  store : String → V
  statusVal : ActionStatus
  errorVal : Option E
  book : Book

/-- Observable effect events, in program order. -/
inductive Ev (V E P : Type) : Type
  | readCell (k : String) (v : V)
  | writeCell (k : String) (v : V)
  | writeStatus (s : ActionStatus)
  | writeError (e : Option E)
  | invokeOp (p : P) (optimistic : List (String × V)) (snapshot : List (String × V))
  | rollbackCall (p : P) (optimistic : List (String × V)) (snapshot : List (String × V)) (e : E)
deriving DecidableEq

/-- Pointwise store update (one `writeTarget` on a cell). -/
def writeTarget (s : String → V) (k : String) (v : V) : String → V :=
  fun k' => if k' = k then v else s k'

/-- The apply / revert loop: `for key of keys, writeTarget(sources[key], f(key))`. -/
def writeAll (keys : List String) (f : String → V) (s : String → V) : String → V :=
  keys.foldl (fun acc k => writeTarget acc k (f k)) s

/-- `setStatus` helper: writes the status target when configured, no-op
otherwise (`setTarget` returns early on an absent ref).  Returns the new
state and the emitted events. -/
def setStatus (hasStatus : Bool) (s : ActionStatus) (st : St V E) :
    St V E × List (Ev V E P) :=
  if hasStatus then ({ st with statusVal := s }, [Ev.writeStatus s]) else (st, [])

/-- `setError` helper: writes the error target when configured, no-op
otherwise. -/
def setError (hasError : Bool) (e : Option E) (st : St V E) :
    St V E × List (Ev V E P) :=
  if hasError then ({ st with errorVal := e }, [Ev.writeError e]) else (st, [])

/-- Outcome of the synchronous phase of a `runOptimistic` call. -/
inductive StartOut (V E P : Type) : Type
  | attached (pid : Nat)
  | failed (pid : Nat) (err : RunErr E)
  | pending (pid : Nat) (optimistic : String → V) (snapF : String → V)
      (optL : List (String × V)) (snapL : List (String × V))

/-- Whether a start outcome left a run suspended at the `await`. -/
def StartOut.isPending : StartOut V E P → Bool
  | .pending _ _ _ _ _ => true
  | _ => false

/-- Body of a new run's synchronous prefix, entered once the concurrency
gate has decided not to attach: increment the in-flight count (from the
`active` value read at call time), check for an empty Source Set, take the
prior snapshot, run `mutate`, apply the optimistic values, announce
`pending` and clear the error, invoke the operation, and register the run
promise.  A throw before the `try` block (empty sources, throwing
`mutate`) rejects the registered promise without ever reaching the
`finally`. -/
def startNew (d : Desc V E P) (p : P) (pid : Nat) (active : Nat) (st : St V E) :
    St V E × List (Ev V E P) × StartOut V E P :=
  let book1 : Book := { count := some (active + 1), prom := some pid }
  if d.keys = [] then
    ({ st with book := book1 }, [], .failed pid (.config configMsg))
  else
    let snapF := st.store
    let snapL := d.keys.map fun k => (k, snapF k)
    let readEvs : List (Ev V E P) := d.keys.map fun k => Ev.readCell k (snapF k)
    match d.mutate snapL p with
    | .error e => ({ st with book := book1 }, readEvs, .failed pid (.thrown e))
    | .ok optimistic =>
      let optL := d.keys.map fun k => (k, optimistic k)
      let writeEvs : List (Ev V E P) := d.keys.map fun k => Ev.writeCell k (optimistic k)
      let st1 : St V E := { st with store := writeAll d.keys optimistic st.store }
      let (st2, evS) := setStatus d.hasStatus .pending st1
      let (st3, evE) := setError d.hasError none st2
      ({ st3 with book := book1 },
        readEvs ++ writeEvs ++ evS ++ evE ++ [Ev.invokeOp p optL snapL],
        .pending pid optimistic snapF optL snapL)

/-- Synchronous phase of `runOptimistic(op, payload)`: the concurrency
gate (`concurrency === 'ignore' && active > 0` with a registered in-flight
promise returns that promise and does nothing else), otherwise
`startNew`. -/
def runOptimisticStart (d : Desc V E P) (p : P) (pid : Nat) (st : St V E) :
    St V E × List (Ev V E P) × StartOut V E P :=
  let active := st.book.count.getD 0
  if d.concurrency = .ignore ∧ 0 < active then
    match st.book.prom with
    | some q => (st, [], .attached q)
    | none => startNew d p pid active st
  else
    startNew d p pid active st

/-- The `finally` block: decrement the in-flight count (reading the
current entry, defaulting to 1); keep the entry while positive, otherwise
delete both the count and the promise entries. -/
def finallyCleanup (st : St V E) : St V E :=
  let nextActive := st.book.count.getD 1 - 1
  if 0 < nextActive then { st with book := { st.book with count := some nextActive } }
  else { st with book := { count := none, prom := none } }

/-- Continuation of a suspended run once the awaited operation settles
with `res`: on success write `success` and return the result; on failure
run the custom rollback handler if configured (no automatic cell writes)
or otherwise write every key's prior value back, then write `error`
status, store the failure value, and re-raise it; in both cases the
`finally` cleanup runs last. -/
def runOptimisticSettle (d : Desc V E P) (p : P)
    (snapF : String → V) (optL snapL : List (String × V))
    (res : Except E R) (st : St V E) :
    St V E × List (Ev V E P) × Except (RunErr E) R :=
  match res with
  | .ok r =>
    let (st1, evS) := setStatus (P := P) d.hasStatus .success st
    (finallyCleanup st1, evS, .ok r)
  | .error e =>
    let (st1, evRb) :=
      match d.rollback? with
      | some rb =>
        ({ st with store := rb ⟨p, optL, snapL, e⟩ st.store },
          ([Ev.rollbackCall p optL snapL e] : List (Ev V E P)))
      | none =>
        ({ st with store := writeAll d.keys snapF st.store },
          d.keys.map fun k => Ev.writeCell k (snapF k))
    let (st2, evS) := setStatus d.hasStatus .error st1
    let (st3, evE) := setError d.hasError (some e) st2
    (finallyCleanup st3, evRb ++ evS ++ evE, .error (.thrown e))

/-- Final outcome of one `runOptimistic` call: attached to an in-flight
promise, or a fresh run promise (id `pid`) resolved / rejected. -/
inductive Outcome (E R : Type) : Type
  | attachedTo (pid : Nat)
  | resolved (pid : Nat) (r : R)
  | rejected (pid : Nat) (err : RunErr E)
deriving DecidableEq, Repr

/-- One full `runOptimistic` call, given the outcome `res` the awaited
confirming operation eventually settles with, composed from the start and
settle phases. -/
def runOptimistic (d : Desc V E P) (p : P) (pid : Nat) (res : Except E R) (st : St V E) :
    St V E × List (Ev V E P) × Outcome E R :=
  match runOptimisticStart d p pid st with
  | (st1, evs, .attached q) => (st1, evs, .attachedTo q)
  | (st1, evs, .failed q err) => (st1, evs, .rejected q err)
  | (st1, evs, .pending q _ snapF optL snapL) =>
    match runOptimisticSettle d p snapF optL snapL res st1 with
    | (st2, evs2, .ok r) => (st2, evs ++ evs2, .resolved q r)
    | (st2, evs2, .error err) => (st2, evs ++ evs2, .rejected q err)

/-- Events that are cell reads or cell writes. -/
def Ev.isCellEv : Ev V E P → Bool
  | .readCell _ _ => true
  | .writeCell _ _ => true
  | _ => false

/-- Events that are cell writes. -/
def Ev.isWriteCell : Ev V E P → Bool
  | .writeCell _ _ => true
  | _ => false

/-- Events that are custom-rollback invocations. -/
def Ev.isRollbackCall : Ev V E P → Bool
  | .rollbackCall _ _ _ _ => true
  | _ => false

/-! ### Helper lemmas -/

lemma writeAll_apply (keys : List String) (f s : String → V) (k : String) :
    writeAll keys f s k = if k ∈ keys then f k else s k := by
  induction keys generalizing s with
  | nil => simp [writeAll]
  | cons k0 ks ih =>
    show writeAll ks f (writeTarget s k0 (f k0)) k = _
    rw [ih]
    by_cases hks : k ∈ ks
    · simp [hks]
    · by_cases hk0 : k = k0 <;> simp [writeTarget, hks, hk0]

lemma writeAll_mem (keys : List String) (f s : String → V) (k : String)
    (h : k ∈ keys) : writeAll keys f s k = f k := by
  rw [writeAll_apply]; simp [h]

lemma filter_map_none (p : Ev V E P → Bool) (f : String → Ev V E P)
    (h : ∀ k, p (f k) = false) (l : List String) :
    (l.map f).filter p = [] := by
  induction l with
  | nil => rfl
  | cons a l ih => simp [List.filter, h, ih]

lemma filter_map_all (p : Ev V E P → Bool) (f : String → Ev V E P)
    (h : ∀ k, p (f k) = true) (l : List String) :
    (l.map f).filter p = l.map f := by
  induction l with
  | nil => rfl
  | cons a l ih => simp [List.filter, h, ih]

/-- Characterization of `startNew` when `mutate` returns normally. -/
lemma startNew_ok_eq (d : Desc V E P) (p : P) (pid active : Nat) (st : St V E)
    (opt : String → V)
    (hks : d.keys ≠ [])
    (hmut : d.mutate (d.keys.map fun k => (k, st.store k)) p = .ok opt) :
    startNew d p pid active st =
      ({ store := writeAll d.keys opt st.store,
         statusVal := if d.hasStatus then .pending else st.statusVal,
         errorVal := if d.hasError then none else st.errorVal,
         book := ⟨some (active + 1), some pid⟩ },
       (d.keys.map fun k => Ev.readCell k (st.store k)) ++
         (d.keys.map fun k => Ev.writeCell k (opt k)) ++
         (if d.hasStatus then [Ev.writeStatus .pending] else []) ++
         (if d.hasError then [Ev.writeError none] else []) ++
         [Ev.invokeOp p (d.keys.map fun k => (k, opt k))
           (d.keys.map fun k => (k, st.store k))],
       .pending pid opt st.store (d.keys.map fun k => (k, opt k))
         (d.keys.map fun k => (k, st.store k))) := by
  unfold startNew
  rw [if_neg hks]
  dsimp only
  rw [hmut]
  unfold setStatus setError
  by_cases hS : d.hasStatus <;> by_cases hE : d.hasError <;> simp [hS, hE]

/-- Characterization of the synchronous phase for a call that starts a
fresh run (no in-flight count entry) whose `mutate` returns normally. -/
lemma start_run_eq (d : Desc V E P) (p : P) (pid : Nat) (st : St V E)
    (opt : String → V)
    (hks : d.keys ≠ [])
    (hmut : d.mutate (d.keys.map fun k => (k, st.store k)) p = .ok opt)
    (hfree : st.book.count = none) :
    runOptimisticStart d p pid st =
      ({ store := writeAll d.keys opt st.store,
         statusVal := if d.hasStatus then .pending else st.statusVal,
         errorVal := if d.hasError then none else st.errorVal,
         book := ⟨some 1, some pid⟩ },
       (d.keys.map fun k => Ev.readCell k (st.store k)) ++
         (d.keys.map fun k => Ev.writeCell k (opt k)) ++
         (if d.hasStatus then [Ev.writeStatus .pending] else []) ++
         (if d.hasError then [Ev.writeError none] else []) ++
         [Ev.invokeOp p (d.keys.map fun k => (k, opt k))
           (d.keys.map fun k => (k, st.store k))],
       .pending pid opt st.store (d.keys.map fun k => (k, opt k))
         (d.keys.map fun k => (k, st.store k))) := by
  unfold runOptimisticStart startNew
  rw [hfree]
  simp only [Option.getD_none, Nat.lt_irrefl, and_false, if_neg, ite_false,
    not_false_eq_true]
  rw [if_neg hks, hmut]
  unfold setStatus setError
  by_cases hS : d.hasStatus <;> by_cases hE : d.hasError <;> simp [hS, hE]

/-! ### Claim theorems -/

/-- C1: for a descriptor with a non-empty Source Set, if the confirming
operation resolves successfully, the run resolves with the operation's
result, every cell of the Source Set ends at the value the mutation
function computed for its key from the prior snapshot and payload, and
the cell writes of the whole run are exactly the Apply-step writes of
those optimistic values — no further cell write after Apply. -/
theorem c1_success_commits (d : Desc V E P) (p : P) (pid : Nat) (r : R) (st : St V E)
    (opt : String → V)
    (hks : d.keys ≠ [])
    (hmut : d.mutate (d.keys.map fun k => (k, st.store k)) p = .ok opt)
    (hfree : st.book.count = none) :
    (runOptimistic d p pid (Except.ok r) st).2.2 = Outcome.resolved pid r ∧
    (∀ k ∈ d.keys, (runOptimistic d p pid (Except.ok r) st).1.store k = opt k) ∧
    (runOptimistic d p pid (Except.ok r) st).2.1.filter Ev.isWriteCell =
      d.keys.map fun k => Ev.writeCell k (opt k) := by
  unfold runOptimistic
  rw [start_run_eq d p pid st opt hks hmut hfree]
  unfold runOptimisticSettle setStatus finallyCleanup
  by_cases hS : d.hasStatus <;> by_cases hE : d.hasError <;>
    simp [hS, hE, writeAll_mem, List.filter_append,
      filter_map_none Ev.isWriteCell (fun k => Ev.readCell k (st.store k)) (fun _ => rfl),
      filter_map_all Ev.isWriteCell (fun k => Ev.writeCell k (opt k)) (fun _ => rfl),
      Ev.isWriteCell] <;>
  exact fun k hk => writeAll_mem d.keys opt st.store k hk

/-- Witness for C1: one cell `count` holding 5, the mutation writes 8;
after a successful run the promise resolves with the result, the cell
holds 8, and the only cell write is the Apply write of 8. -/
theorem c1_success_commits_witness :
    (runOptimistic
        (⟨["count"], fun _ _ => .ok fun _ => (8 : Int), none, .allow, true, true⟩ :
          Desc Int String Int)
        3 0 (Except.ok "done")
        ⟨fun _ => (5 : Int), .idle, none, ⟨none, none⟩⟩).2.2 =
      Outcome.resolved 0 "done" ∧
    (∀ k ∈ ["count"],
      (runOptimistic
          (⟨["count"], fun _ _ => .ok fun _ => (8 : Int), none, .allow, true, true⟩ :
            Desc Int String Int)
          3 0 (Except.ok "done")
          ⟨fun _ => (5 : Int), .idle, none, ⟨none, none⟩⟩).1.store k = (fun _ => (8 : Int)) k) ∧
    (runOptimistic
        (⟨["count"], fun _ _ => .ok fun _ => (8 : Int), none, .allow, true, true⟩ :
          Desc Int String Int)
        3 0 (Except.ok "done")
        ⟨fun _ => (5 : Int), .idle, none, ⟨none, none⟩⟩).2.1.filter Ev.isWriteCell =
      ["count"].map fun k => Ev.writeCell k ((fun _ => (8 : Int)) k) :=
  c1_success_commits _ 3 0 "done" _ (fun _ => (8 : Int)) (by decide) rfl rfl

/-- C2: for a descriptor with a non-empty Source Set and no custom
rollback handler, if the confirming operation fails then after the run
settles, every cell of the Source Set holds exactly the value it held
immediately before the run started, regardless of what the mutation
function computed. -/
theorem c2_auto_rollback_restores (d : Desc V E P) (p : P) (pid : Nat) (e : E) (st : St V E)
    (opt : String → V)
    (hks : d.keys ≠ [])
    (hmut : d.mutate (d.keys.map fun k => (k, st.store k)) p = .ok opt)
    (hrb : d.rollback? = none)
    (hfree : st.book.count = none) :
    (runOptimistic d p pid (Except.error e : Except E R) st).2.2 =
      Outcome.rejected pid (RunErr.thrown e) ∧
    ∀ k ∈ d.keys,
      (runOptimistic d p pid (Except.error e : Except E R) st).1.store k = st.store k := by
  unfold runOptimistic
  rw [start_run_eq d p pid st opt hks hmut hfree]
  unfold runOptimisticSettle setStatus setError finallyCleanup
  rw [hrb]
  by_cases hS : d.hasStatus <;> by_cases hE : d.hasError <;>
    simp [hS, hE] <;>
  exact fun k hk => writeAll_mem d.keys st.store _ k hk

/-- Witness for C2: cell `count` starts at 5, the mutation writes 8, the
operation fails; the promise rejects with that failure and the cell is
back at 5. -/
theorem c2_auto_rollback_restores_witness :
    (runOptimistic
        (⟨["count"], fun _ _ => .ok fun _ => (8 : Int), none, .allow, true, true⟩ :
          Desc Int String Int)
        3 0 (Except.error "boom" : Except String String)
        ⟨fun _ => (5 : Int), .idle, none, ⟨none, none⟩⟩).2.2 =
      Outcome.rejected 0 (RunErr.thrown "boom") ∧
    ∀ k ∈ ["count"],
      (runOptimistic
          (⟨["count"], fun _ _ => .ok fun _ => (8 : Int), none, .allow, true, true⟩ :
            Desc Int String Int)
          3 0 (Except.error "boom" : Except String String)
          ⟨fun _ => (5 : Int), .idle, none, ⟨none, none⟩⟩).1.store k =
        (⟨fun _ => (5 : Int), .idle, none, ⟨none, none⟩⟩ : St Int String).store k :=
  c2_auto_rollback_restores _ 3 0 "boom" _ (fun _ => (8 : Int)) (by decide) rfl rfl rfl

/-- C4: for a descriptor with a non-empty Source Set and configured
status and error targets, if the confirming operation fails with `e`,
then after rollback the status target holds `error`, the error target
holds exactly `e`, and the run's promise rejects with that same value,
unwrapped and untransformed. -/
theorem c4_failure_propagates (d : Desc V E P) (p : P) (pid : Nat) (e : E) (st : St V E)
    (opt : String → V)
    (hks : d.keys ≠ [])
    (hmut : d.mutate (d.keys.map fun k => (k, st.store k)) p = .ok opt)
    (hfree : st.book.count = none)
    (hS : d.hasStatus = true)
    (hE : d.hasError = true) :
    (runOptimistic d p pid (Except.error e : Except E R) st).2.2 =
      Outcome.rejected pid (RunErr.thrown e) ∧
    (runOptimistic d p pid (Except.error e : Except E R) st).1.statusVal = .error ∧
    (runOptimistic d p pid (Except.error e : Except E R) st).1.errorVal = some e := by
  unfold runOptimistic
  rw [start_run_eq d p pid st opt hks hmut hfree]
  unfold runOptimisticSettle setStatus setError finallyCleanup
  cases hrb : d.rollback? <;> simp [hS, hE]

/-- Witness for C4: the failing run of the C2 scenario ends with status
`error`, the error target holding the failure, and the promise rejected
with it. -/
theorem c4_failure_propagates_witness :
    (runOptimistic
        (⟨["count"], fun _ _ => .ok fun _ => (8 : Int), none, .allow, true, true⟩ :
          Desc Int String Int)
        3 1 (Except.error "nope" : Except String String)
        ⟨fun _ => (5 : Int), .idle, none, ⟨none, none⟩⟩).2.2 =
      Outcome.rejected 1 (RunErr.thrown "nope") ∧
    (runOptimistic
        (⟨["count"], fun _ _ => .ok fun _ => (8 : Int), none, .allow, true, true⟩ :
          Desc Int String Int)
        3 1 (Except.error "nope" : Except String String)
        ⟨fun _ => (5 : Int), .idle, none, ⟨none, none⟩⟩).1.statusVal = .error ∧
    (runOptimistic
        (⟨["count"], fun _ _ => .ok fun _ => (8 : Int), none, .allow, true, true⟩ :
          Desc Int String Int)
        3 1 (Except.error "nope" : Except String String)
        ⟨fun _ => (5 : Int), .idle, none, ⟨none, none⟩⟩).1.errorVal = some "nope" :=
  c4_failure_propagates _ 3 1 "nope" _ (fun _ => (8 : Int)) (by decide) rfl rfl rfl rfl

/-- C7: for a descriptor with a custom rollback handler, if the
confirming operation fails, the handler is invoked exactly once with the
payload, the optimistic snapshot, the prior snapshot and the failure
value; the executor performs no automatic cell writes of its own (the
only cell writes of the run are the Apply-step ones), and the final cell
store is exactly the handler's effect on the post-Apply store. -/
theorem c7_custom_rollback_full_control (d : Desc V E P) (p : P) (pid : Nat) (e : E)
    (st : St V E) (opt : String → V)
    (rb : RbCtx V E P → (String → V) → (String → V))
    (hks : d.keys ≠ [])
    (hmut : d.mutate (d.keys.map fun k => (k, st.store k)) p = .ok opt)
    (hrb : d.rollback? = some rb)
    (hfree : st.book.count = none) :
    (runOptimistic d p pid (Except.error e : Except E R) st).1.store =
      rb ⟨p, d.keys.map fun k => (k, opt k), d.keys.map fun k => (k, st.store k), e⟩
        (writeAll d.keys opt st.store) ∧
    (runOptimistic d p pid (Except.error e : Except E R) st).2.1.filter Ev.isRollbackCall =
      [Ev.rollbackCall p (d.keys.map fun k => (k, opt k))
        (d.keys.map fun k => (k, st.store k)) e] ∧
    (runOptimistic d p pid (Except.error e : Except E R) st).2.1.filter Ev.isWriteCell =
      d.keys.map fun k => Ev.writeCell k (opt k) := by
  unfold runOptimistic
  rw [start_run_eq d p pid st opt hks hmut hfree]
  unfold runOptimisticSettle setStatus setError finallyCleanup
  rw [hrb]
  by_cases hS : d.hasStatus <;> by_cases hE : d.hasError <;>
    simp [hS, hE, List.filter_append,
      filter_map_none Ev.isRollbackCall (fun k => Ev.readCell k (st.store k)) (fun _ => rfl),
      filter_map_none Ev.isRollbackCall (fun k => Ev.writeCell k (opt k)) (fun _ => rfl),
      filter_map_none Ev.isWriteCell (fun k => Ev.readCell k (st.store k)) (fun _ => rfl),
      filter_map_all Ev.isWriteCell (fun k => Ev.writeCell k (opt k)) (fun _ => rfl),
      Ev.isRollbackCall, Ev.isWriteCell]

/-- Witness for C7: a handler that writes 999 into `count`; after the
failed run the store is exactly the handler's effect on the post-Apply
store, the handler was called once with the right context, and the only
automatic cell write was the Apply write. -/
theorem c7_custom_rollback_full_control_witness :
    (runOptimistic
        (⟨["count"], fun _ _ => .ok fun _ => (8 : Int),
            some fun _ s => writeTarget s "count" 999, .allow, true, true⟩ :
          Desc Int String Int)
        3 2 (Except.error "boom" : Except String String)
        ⟨fun _ => (5 : Int), .idle, none, ⟨none, none⟩⟩).1.store =
      (fun _ s => writeTarget s "count" 999)
        (⟨3, ["count"].map fun k => (k, (8 : Int)), ["count"].map fun k => (k, (5 : Int)),
          "boom"⟩ : RbCtx Int String Int)
        (writeAll ["count"] (fun _ => (8 : Int)) fun _ => (5 : Int)) ∧
    (runOptimistic
        (⟨["count"], fun _ _ => .ok fun _ => (8 : Int),
            some fun _ s => writeTarget s "count" 999, .allow, true, true⟩ :
          Desc Int String Int)
        3 2 (Except.error "boom" : Except String String)
        ⟨fun _ => (5 : Int), .idle, none, ⟨none, none⟩⟩).2.1.filter Ev.isRollbackCall =
      [Ev.rollbackCall 3 (["count"].map fun k => (k, (8 : Int)))
        (["count"].map fun k => (k, (5 : Int))) "boom"] ∧
    (runOptimistic
        (⟨["count"], fun _ _ => .ok fun _ => (8 : Int),
            some fun _ s => writeTarget s "count" 999, .allow, true, true⟩ :
          Desc Int String Int)
        3 2 (Except.error "boom" : Except String String)
        ⟨fun _ => (5 : Int), .idle, none, ⟨none, none⟩⟩).2.1.filter Ev.isWriteCell =
      ["count"].map fun k => Ev.writeCell k ((fun _ => (8 : Int)) k) :=
  c7_custom_rollback_full_control _ 3 2 "boom" _ (fun _ => (8 : Int))
    (fun _ s => writeTarget s "count" 999) (by decide) rfl rfl rfl

/-- C8: for a descriptor whose Source Set is empty, the call rejects with
the `ConfigurationError` message naming the missing-source condition, the
event trace is empty (no cell is read or written, no status or error
target is written), and the only state change is to the in-flight
bookkeeping. -/
theorem c8_empty_sources_rejects (d : Desc V E P) (p : P) (pid : Nat) (res : Except E R)
    (st : St V E)
    (hks : d.keys = [])
    (hfree : st.book.count = none) :
    runOptimistic d p pid res st =
      ({ st with book := ⟨some 1, some pid⟩ }, [],
        Outcome.rejected pid (RunErr.config configMsg)) := by
  unfold runOptimistic runOptimisticStart startNew
  rw [hfree]
  simp [hks]

/-- Witness for C8: a descriptor with no sources rejects with the
configuration message, with an empty trace and untouched cells and
targets. -/
theorem c8_empty_sources_rejects_witness :
    runOptimistic
        (⟨[], fun _ _ => .ok fun _ => (0 : Int), none, .allow, true, true⟩ :
          Desc Int String Int)
        3 4 (Except.ok "r")
        ⟨fun _ => (5 : Int), .idle, none, ⟨none, none⟩⟩ =
      ({ (⟨fun _ => (5 : Int), .idle, none, ⟨none, none⟩⟩ : St Int String) with
          book := ⟨some 1, some 4⟩ }, [],
        Outcome.rejected 4 (RunErr.config configMsg)) :=
  c8_empty_sources_rejects _ 3 4 (Except.ok "r") _ rfl rfl

/-- C9: for a descriptor with a non-empty Source Set whose mutation
function throws, the call rejects with that thrown value and writes
nothing: the trace holds only the snapshot reads, and the cells, status
value and error value are all unchanged (only the in-flight bookkeeping
moves). -/
theorem c9_mutate_throw_writes_nothing (d : Desc V E P) (p : P) (pid : Nat)
    (res : Except E R) (st : St V E) (e : E)
    (hks : d.keys ≠ [])
    (hmut : d.mutate (d.keys.map fun k => (k, st.store k)) p = .error e)
    (hfree : st.book.count = none) :
    runOptimistic d p pid res st =
      ({ st with book := ⟨some 1, some pid⟩ },
        d.keys.map fun k => Ev.readCell k (st.store k),
        Outcome.rejected pid (RunErr.thrown e)) := by
  unfold runOptimistic runOptimisticStart startNew
  rw [hfree]
  simp [hks, hmut]

/-- Witness for C9: a mutation that throws rejects the run with the
thrown value, leaves cell `count` at 5 and never touches the status or
error targets. -/
theorem c9_mutate_throw_writes_nothing_witness :
    runOptimistic
        (⟨["count"], fun _ _ => .error "mutate blew up", none, .allow, true, true⟩ :
          Desc Int String Int)
        3 5 (Except.ok "r")
        ⟨fun _ => (5 : Int), .idle, none, ⟨none, none⟩⟩ =
      ({ (⟨fun _ => (5 : Int), .idle, none, ⟨none, none⟩⟩ : St Int String) with
          book := ⟨some 1, some 5⟩ },
        ["count"].map fun k => Ev.readCell k ((5 : Int)),
        Outcome.rejected 5 (RunErr.thrown "mutate blew up")) :=
  c9_mutate_throw_writes_nothing _ 3 5 (Except.ok "r") _ "mutate blew up"
    (by decide) rfl rfl

/-- C3: with concurrency policy `ignore`, a call that starts a run leaves
it suspended at the await with the bookkeeping registered, and a second
call issued while that run is in flight performs no work at all: it
changes no state, emits no event (no snapshot read, no cell write, no
operation invocation) and returns the very promise of the in-flight run,
so both callers settle with the identical value of that one promise. -/
theorem c3_ignore_dedup (d : Desc V E P) (p p2 : P) (pid1 pid2 : Nat) (st : St V E)
    (opt : String → V)
    (hks : d.keys ≠ [])
    (hmut : d.mutate (d.keys.map fun k => (k, st.store k)) p = .ok opt)
    (hfree : st.book.count = none)
    (hconc : d.concurrency = .ignore) :
    (runOptimisticStart d p pid1 st).2.2.isPending = true ∧
    runOptimisticStart d p2 pid2 (runOptimisticStart d p pid1 st).1 =
      ((runOptimisticStart d p pid1 st).1, [], .attached pid1) := by
  rw [start_run_eq d p pid1 st opt hks hmut hfree]
  refine ⟨rfl, ?_⟩
  unfold runOptimisticStart
  simp [hconc]

/-- Witness for C3: with `ignore`, the second of two back-to-back calls
attaches to the first call's promise and does nothing. -/
theorem c3_ignore_dedup_witness :
    (runOptimisticStart
        (⟨["count"], fun _ _ => .ok fun _ => (8 : Int), none, .ignore, true, true⟩ :
          Desc Int String Int)
        3 10
        ⟨fun _ => (5 : Int), .idle, none, ⟨none, none⟩⟩).2.2.isPending = true ∧
    runOptimisticStart
        (⟨["count"], fun _ _ => .ok fun _ => (8 : Int), none, .ignore, true, true⟩ :
          Desc Int String Int)
        4 11
        (runOptimisticStart
          (⟨["count"], fun _ _ => .ok fun _ => (8 : Int), none, .ignore, true, true⟩ :
            Desc Int String Int)
          3 10
          ⟨fun _ => (5 : Int), .idle, none, ⟨none, none⟩⟩).1 =
      ((runOptimisticStart
          (⟨["count"], fun _ _ => .ok fun _ => (8 : Int), none, .ignore, true, true⟩ :
            Desc Int String Int)
          3 10
          ⟨fun _ => (5 : Int), .idle, none, ⟨none, none⟩⟩).1, [], .attached 10) :=
  c3_ignore_dedup _ 3 4 10 11 _ (fun _ => (8 : Int)) (by decide) rfl rfl rfl

/-- C5 counterexample: at the concrete input of an empty Source Set the
claim fails — the rejected call leaves the in-flight counter at 1 and the
stale promise registered (the `finally` never ran), and a later call for
the same descriptor under policy `ignore` does not start fresh: it
attaches to the stale rejected promise. -/
theorem c5_counterexample :
    (runOptimistic
        (⟨[], fun _ _ => .ok fun _ => (0 : Int), none, .ignore, false, false⟩ :
          Desc Int String Int)
        0 7 (Except.ok "r")
        ⟨fun _ => (0 : Int), .idle, none, ⟨none, none⟩⟩).1.book =
      ⟨some 1, some 7⟩ ∧
    runOptimisticStart
        (⟨[], fun _ _ => .ok fun _ => (0 : Int), none, .ignore, false, false⟩ :
          Desc Int String Int)
        0 8
        (runOptimistic
          (⟨[], fun _ _ => .ok fun _ => (0 : Int), none, .ignore, false, false⟩ :
            Desc Int String Int)
          0 7 (Except.ok "r")
          ⟨fun _ => (0 : Int), .idle, none, ⟨none, none⟩⟩).1 =
      ((runOptimistic
          (⟨[], fun _ _ => .ok fun _ => (0 : Int), none, .ignore, false, false⟩ :
            Desc Int String Int)
          0 7 (Except.ok "r")
          ⟨fun _ => (0 : Int), .idle, none, ⟨none, none⟩⟩).1, [], .attached 7) :=
  ⟨rfl, rfl⟩

/-- C5 (amended): for every call that actually reaches the confirming
operation (non-empty Source Set, mutation returned normally, no in-flight
entry at call time), the `finally` step decrements the in-flight counter
and, on reaching zero, removes the bookkeeping entirely — the counter
entry and the stored promise — whatever the operation's outcome; calls
that fail before the operation is invoked are the exception recorded by
the counterexample. -/
theorem c5_cleanup_after_operation (d : Desc V E P) (p : P) (pid : Nat)
    (res : Except E R) (st : St V E) (opt : String → V)
    (hks : d.keys ≠ [])
    (hmut : d.mutate (d.keys.map fun k => (k, st.store k)) p = .ok opt)
    (hfree : st.book.count = none) :
    (runOptimistic d p pid res st).1.book = ⟨none, none⟩ := by
  unfold runOptimistic
  rw [start_run_eq d p pid st opt hks hmut hfree]
  unfold runOptimisticSettle setStatus setError finallyCleanup
  cases res <;> cases hrb : d.rollback? <;>
    by_cases hS : d.hasStatus <;> by_cases hE : d.hasError <;> simp [hS, hE]

/-- Witness for the amended C5: after a settled failing run the
bookkeeping is gone. -/
theorem c5_cleanup_after_operation_witness :
    (runOptimistic
        (⟨["count"], fun _ _ => .ok fun _ => (8 : Int), none, .ignore, true, true⟩ :
          Desc Int String Int)
        3 12 (Except.error "boom" : Except String String)
        ⟨fun _ => (5 : Int), .idle, none, ⟨none, none⟩⟩).1.book = ⟨none, none⟩ :=
  c5_cleanup_after_operation _ 3 12 _ _ (fun _ => (8 : Int)) (by decide) rfl rfl

/-- C6: with status and error targets configured, the event trace of a
run is exactly — in program order — the snapshot reads, then every key's
optimistic cell write, then the `pending` status write, then the error
clear to `null` immediately after it, then the operation invocation, and
only then the terminal part (`success` write, or rollback followed by the
`error` status and error writes).  In particular `pending` is written
strictly after every optimistic cell write and strictly before the
terminal status write, with the error clear immediately after `pending`. -/
theorem c6_status_sequencing (d : Desc V E P) (p : P) (pid : Nat) (res : Except E R)
    (st : St V E) (opt : String → V)
    (hks : d.keys ≠ [])
    (hmut : d.mutate (d.keys.map fun k => (k, st.store k)) p = .ok opt)
    (hfree : st.book.count = none)
    (hS : d.hasStatus = true)
    (hE : d.hasError = true) :
    (runOptimistic d p pid res st).2.1 =
      (d.keys.map fun k => Ev.readCell k (st.store k)) ++
      (d.keys.map fun k => Ev.writeCell k (opt k)) ++
      [Ev.writeStatus .pending, Ev.writeError none,
        Ev.invokeOp p (d.keys.map fun k => (k, opt k))
          (d.keys.map fun k => (k, st.store k))] ++
      (match res with
       | .ok _ => [Ev.writeStatus .success]
       | .error e =>
         (match d.rollback? with
          | some _ =>
            [Ev.rollbackCall p (d.keys.map fun k => (k, opt k))
              (d.keys.map fun k => (k, st.store k)) e]
          | none => d.keys.map fun k => Ev.writeCell k (st.store k)) ++
         [Ev.writeStatus .error, Ev.writeError (some e)]) := by
  unfold runOptimistic
  rw [start_run_eq d p pid st opt hks hmut hfree]
  unfold runOptimisticSettle setStatus setError finallyCleanup
  cases res <;> cases hrb : d.rollback? <;> simp [hS, hE]

/-- Witness for C6: the failing single-cell run's trace is read, apply
write, pending, error clear, operation invocation, revert write, error
status, error value — in that order. -/
theorem c6_status_sequencing_witness :
    (runOptimistic
        (⟨["count"], fun _ _ => .ok fun _ => (8 : Int), none, .allow, true, true⟩ :
          Desc Int String Int)
        3 13 (Except.error "boom" : Except String String)
        ⟨fun _ => (5 : Int), .idle, none, ⟨none, none⟩⟩).2.1 =
      (["count"].map fun k => Ev.readCell k ((5 : Int))) ++
      (["count"].map fun k => Ev.writeCell k ((8 : Int))) ++
      [Ev.writeStatus .pending, Ev.writeError none,
        Ev.invokeOp 3 (["count"].map fun k => (k, (8 : Int)))
          (["count"].map fun k => (k, (5 : Int)))] ++
      ((["count"].map fun k => Ev.writeCell k ((5 : Int))) ++
        [Ev.writeStatus .error, Ev.writeError (some "boom")]) :=
  c6_status_sequencing _ 3 13 _ _ (fun _ => (8 : Int)) (by decide) rfl rfl rfl rfl

set_option maxHeartbeats 2000000 in
/-- C10: the cell reads, the cell writes, the final store, the in-flight
bookkeeping and the resolved or rejected result of a call are identical
whether or not the status and error targets are configured; omitting a
target only suppresses the corresponding status/error writes (the write
helper is a no-op on an absent target) and changes nothing else -- this
holds for every descriptor, payload, initial state and operation outcome. -/
theorem c10_targets_orthogonal (d : Desc V E P) (b b' : Bool) (p : P) (pid : Nat)
    (res : Except E R) (st : St V E) :
    (runOptimistic { d with hasStatus := b, hasError := b' } p pid res st).1.store =
      (runOptimistic d p pid res st).1.store ∧
    (runOptimistic { d with hasStatus := b, hasError := b' } p pid res st).1.book =
      (runOptimistic d p pid res st).1.book ∧
    (runOptimistic { d with hasStatus := b, hasError := b' } p pid res st).2.2 =
      (runOptimistic d p pid res st).2.2 ∧
    (runOptimistic { d with hasStatus := b, hasError := b' } p pid res st).2.1.filter
        Ev.isCellEv =
      (runOptimistic d p pid res st).2.1.filter Ev.isCellEv := by
  by_cases hg : d.concurrency = Concurrency.ignore ∧ 0 < st.book.count.getD 0
  case pos =>
    rcases hpr : st.book.prom with _ | q
    case some =>
      unfold runOptimistic runOptimisticStart
      simp [hg, hpr]
    case none =>
      by_cases hk : d.keys = []
      · unfold runOptimistic runOptimisticStart startNew
        simp [hg, hpr, hk]
      · rcases hm : d.mutate (d.keys.map fun k => (k, st.store k)) p with e | opt
        · unfold runOptimistic runOptimisticStart startNew
          simp [hg, hpr, hk, hm]
        · unfold runOptimistic runOptimisticStart
          dsimp only
          simp only [if_pos hg, hpr]
          rw [startNew_ok_eq { d with hasStatus := b, hasError := b' } p pid
              (st.book.count.getD 0) st opt hk hm,
            startNew_ok_eq d p pid (st.book.count.getD 0) st opt hk hm]
          unfold runOptimisticSettle setStatus setError finallyCleanup
          rcases res with e' | r <;> rcases hrb : d.rollback? with _ | rb <;>
            by_cases hS : d.hasStatus <;> by_cases hE : d.hasError <;>
              cases b <;> cases b' <;>
              by_cases hact : 0 < st.book.count.getD 0 <;>
            simp [hS, hE, hrb, hact, List.filter_append, Ev.isCellEv,
              filter_map_all Ev.isCellEv (fun k => Ev.readCell k (st.store k)) (fun _ => rfl),
              filter_map_all Ev.isCellEv (fun k => Ev.writeCell k (opt k)) (fun _ => rfl)]
  case neg =>
    by_cases hk : d.keys = []
    · unfold runOptimistic runOptimisticStart startNew
      simp [hg, hk]
    · rcases hm : d.mutate (d.keys.map fun k => (k, st.store k)) p with e | opt
      · unfold runOptimistic runOptimisticStart startNew
        simp [hg, hk, hm]
      · unfold runOptimistic runOptimisticStart
        dsimp only
        simp only [if_neg hg]
        rw [startNew_ok_eq { d with hasStatus := b, hasError := b' } p pid
            (st.book.count.getD 0) st opt hk hm,
          startNew_ok_eq d p pid (st.book.count.getD 0) st opt hk hm]
        unfold runOptimisticSettle setStatus setError finallyCleanup
        rcases res with e' | r <;> rcases hrb : d.rollback? with _ | rb <;>
          by_cases hS : d.hasStatus <;> by_cases hE : d.hasError <;>
            cases b <;> cases b' <;>
            by_cases hact : 0 < st.book.count.getD 0 <;>
          simp [hS, hE, hrb, hact, List.filter_append, Ev.isCellEv,
            filter_map_all Ev.isCellEv (fun k => Ev.readCell k (st.store k)) (fun _ => rfl),
            filter_map_all Ev.isCellEv (fun k => Ev.writeCell k (opt k)) (fun _ => rfl)]

end Optimistate
